import Mathlib

/-!
Shallow embedding of the WhatsApp gateway server (`src/server.js`, second
revision in the file, the one all claims cite: the connection handler at
lines 860-896, `formatWhatsAppId` at 952-964, the `/api/pair` handler at
1007-1037, the bulk handler at 1407-1486, the location handler at
1537-1575, the catalog handler at 1682-1817 and the album handler at
1820-1900).

The external transport (`sock.sendMessage`) is modelled by an outcome
oracle: a value of `SendOutcome` (or a function from the item index to
one) standing for the result of each `await sock.sendMessage(...)` call.
JavaScript string falsiness (`!s`) is modelled by emptiness, and optional
request fields by `Option String` with `jsTruthy`.
-/

namespace WAElite

/-- JS truthiness of an optional string field: `undefined`/missing and the
empty string are falsy, every other string is truthy. -/
def jsTruthy : Option String → Bool
  | none => false
  | some s => !(s = "")

/-- JS string interpolation of a possibly-undefined field: `undefined`
renders as the text "undefined". -/
def jsToString : Option String → String
  | none => "undefined"
  | some s => s

/-- The character class kept by `id.replace(/[^\d@:]/g, '')`: digits, `@`
and `:` survive, everything else is deleted. -/
def keepChar (c : Char) : Bool :=
  c.isDigit || c = '@' || c = ':'

/-- `formatWhatsAppId` (server.js 952-964): `null` for a falsy id;
otherwise strip every character that is not a digit, `@` or `:`, and if
the result contains no `@` append `@s.whatsapp.net`. The `Option` return
models the JS `null`. -/
def formatWhatsAppId (id : String) : Option String :=
  if id = "" then none
  else
    let cleanId := id.data.filter keepChar
    if cleanId.contains '@' then some (String.mk cleanId)
    else some (String.mk (cleanId ++ "@s.whatsapp.net".data))

/-- Greedy split into chunks of at most 4 characters, as the regex
`/.{1,4}/g` produces on a string without line terminators (pairing codes
are short alphanumeric strings, so the regex dot matches every
character). -/
def chunksOf4 : List Char → List (List Char)
  | [] => []
  | [a] => [[a]]
  | [a, b] => [[a, b]]
  | [a, b, c] => [[a, b, c]]
  | a :: b :: c :: d :: rest => [a, b, c, d] :: chunksOf4 rest

/-- The pairing-code formatting expression of the `/api/pair` handler
(server.js 1030): `code?.match(/.{1,4}/g)?.join('-') || code`. On the
empty string the regex match is `null`, so `|| code` returns the code
itself; on any other string the match is the greedy 4-chunking and the
chunks are joined with hyphens. -/
def formatPairingCode (code : String) : String :=
  if code = "" then code
  else String.intercalate "-" ((chunksOf4 code.data).map String.mk)

/-! ## Session connection state (server.js 803-809 and 860-896) -/

/-- `maxReconnectAttempts` (server.js 809). -/
def maxReconnectAttempts : Nat := 5

/-- `DisconnectReason.loggedOut` from the baileys-elite library: HTTP
status code 401. -/
def loggedOutCode : Nat := 401

/-- The module-level connection state (server.js 804-808): the reconnect
counter, the connected flag, the connection-state string and the pending
QR value. -/
structure ConnState where
  reconnectAttempts : Nat
  isConnected : Bool
  connectionState : String
  qr : Option String
deriving Repr, DecidableEq

/-- Result of running the `connection === 'close'` branch: the updated
state, and the delay in milliseconds of the reconnect scheduled via
`setTimeout`, or `none` when no reconnect is scheduled. -/
structure CloseResult where
  state : ConnState
  scheduledReconnectDelayMs : Option Nat
deriving Repr, DecidableEq

/-- The `connection === 'close'` branch of the `connection.update`
handler (server.js 860-884). `statusCode` is
`lastDisconnect?.error?.output?.statusCode` (`none` when undefined).
`shouldReconnect` is the strict inequality against
`DisconnectReason.loggedOut`. When reconnecting, the counter is
incremented FIRST and the backoff delay is computed from the incremented
value: `reconnectAttempts++;
delay = Math.min(1000 * Math.pow(2, reconnectAttempts), 30000)`.
All branches then set `isConnected = false` and
`connectionState = 'disconnected'`. -/
def handleConnectionClose (s : ConnState) (statusCode : Option Nat) : CloseResult :=
  -- `shouldReconnect` inlined: statusCode !== DisconnectReason.loggedOut
  if statusCode ≠ some loggedOutCode ∧ s.reconnectAttempts < maxReconnectAttempts then
    let attempts := s.reconnectAttempts + 1
    let delay := min (1000 * 2 ^ attempts) 30000
    { state := { s with reconnectAttempts := attempts,
                        isConnected := false,
                        connectionState := "disconnected" },
      scheduledReconnectDelayMs := some delay }
  else
    { state := { s with isConnected := false,
                        connectionState := "disconnected" },
      scheduledReconnectDelayMs := none }

/-- The `connection === 'open'` branch of the `connection.update` handler
(server.js 885-892): reset the reconnect counter, mark connected and
clear the QR value. -/
def handleConnectionOpen (s : ConnState) : ConnState :=
  { s with reconnectAttempts := 0,
           isConnected := true,
           connectionState := "connected",
           qr := none }

/-! ## Transport oracle and the send handlers -/

/-- The result of one `await sock.sendMessage(...)` call: either a
receipt carrying `result.key.id`, or a thrown error carrying
`error.message`. -/
inductive SendOutcome where
  | ok (messageId : String)
  | err (message : String)
deriving Repr, DecidableEq

/-- One entry of the bulk handler's `results` array (server.js
1453-1457): the formatted id it was sent to and the message id. The
`to` field is the value of `formatWhatsAppId(recipient)` as passed to
the transport. -/
structure BulkSent where
  target : Option String
  messageId : String
deriving Repr, DecidableEq

/-- One entry of the bulk handler's `errors` array (server.js
1465-1468): the raw recipient and the error message. -/
structure BulkFailed where
  target : String
  error : String
deriving Repr, DecidableEq

/-- The loop of the bulk handler (server.js 1426-1470): iterate the
recipients in order; a successful send pushes onto `results`, a thrown
error pushes onto `errors`, and the loop always continues to the next
item. `outcome i` is the transport's behaviour on the i-th submission. -/
def bulkLoop (outcome : Nat → SendOutcome) : Nat → List String → List BulkSent × List BulkFailed
  | _, [] => ([], [])
  | i, r :: rest =>
    let tail := bulkLoop outcome (i + 1) rest
    match outcome i with
    | .ok mid => ({ target := formatWhatsAppId r, messageId := mid } :: tail.1, tail.2)
    | .err m => (tail.1, { target := r, error := m } :: tail.2)

/-- The per-index outcome sequence of a bulk run, in input order: the
i-th entry pairs the i-th recipient with the transport's outcome on the
i-th submission. Used to state order preservation of the two reported
lists. -/
def bulkOutcomes (outcome : Nat → SendOutcome) : Nat → List String → List (String × SendOutcome)
  | _, [] => []
  | i, r :: rest => (r, outcome i) :: bulkOutcomes outcome (i + 1) rest

/-- The `results` entry a recipient/outcome pair contributes, if any. -/
def sentEntry : String × SendOutcome → Option BulkSent
  | (r, .ok mid) => some { target := formatWhatsAppId r, messageId := mid }
  | (_, .err _) => none

/-- The `errors` entry a recipient/outcome pair contributes, if any. -/
def failedEntry : String × SendOutcome → Option BulkFailed
  | (_, .ok _) => none
  | (r, .err m) => some { target := r, error := m }

/-- The JSON body returned by the bulk handler (server.js 1474-1481):
`sent` and `failed` counts and the two separate arrays `results` and
`errors`. -/
structure BulkResponse where
  sent : Nat
  failed : Nat
  results : List BulkSent
  errors : List BulkFailed
deriving Repr, DecidableEq

/-- The `/api/send/bulk` handler (server.js 1407-1486) after the
connectivity gate: validate the recipients array and the message, then
run the send loop and aggregate. `Except.error` is a 400 response. -/
def bulkHandler (outcome : Nat → SendOutcome) (recipients : List String)
    (message : String) : Except String BulkResponse :=
  if recipients = [] then .error "Recipients array is required"
  else if message = "" then .error "Message content is required"
  else
    let p := bulkLoop outcome 0 recipients
    .ok { sent := p.1.length, failed := p.2.length, results := p.1, errors := p.2 }

/-! ## Album handler (server.js 1820-1900) -/

/-- One element of the album request's `media` array; every field is an
optional request attribute. -/
structure MediaItem where
  type : Option String
  image : Option String
  video : Option String
  url : Option String
  caption : Option String
deriving Repr, DecidableEq

/-- The kind of payload the album loop builds for an item. -/
inductive MediaKind where
  | image
  | video
deriving Repr, DecidableEq

/-- The per-item branch of the album loop (server.js 1845-1857):
`item.type === 'image' || item.image` selects an image payload,
`item.type === 'video' || item.video` a video payload, anything else is
the invalid-type early return. -/
def classifyItem (it : MediaItem) : Option MediaKind :=
  if it.type = some "image" ∨ jsTruthy it.image then some .image
  else if it.type = some "video" ∨ jsTruthy it.video then some .video
  else none

/-- One entry of the album handler's `results` array (server.js
1861-1877). -/
structure AlbumItemResult where
  index : Nat
  status : String
  messageId : Option String
  error : Option String
deriving Repr, DecidableEq

/-- The album send loop (server.js 1841-1879), threading the item index
and the count of `sock.sendMessage` calls made so far. An invalid media
type returns the 400 error immediately (`Except.error` carries the error
text and how many submissions already happened); otherwise the item is
submitted and the loop continues whether the send succeeded or threw. -/
def albumLoop (outcome : Nat → SendOutcome) :
    List MediaItem → Nat → Nat → Except (String × Nat) (List AlbumItemResult × Nat)
  | [], _, sends => .ok ([], sends)
  | it :: rest, i, sends =>
    match classifyItem it with
    | none => .error ("Invalid media type for item " ++ toString (i + 1) ++ ". Use image or video", sends)
    | some _ =>
      match outcome i with
      | .ok mid =>
        match albumLoop outcome rest (i + 1) (sends + 1) with
        | .error e => .error e
        | .ok (res, total) =>
          .ok ({ index := i + 1, status := "sent", messageId := some mid, error := none } :: res, total)
      | .err m =>
        match albumLoop outcome rest (i + 1) (sends + 1) with
        | .error e => .error e
        | .ok (res, total) =>
          .ok ({ index := i + 1, status := "failed", messageId := none, error := some m } :: res, total)

/-- The album handler's response, each constructor paired with the
number of transport submissions the request caused. -/
inductive AlbumResponse where
  | badRequest (error : String) (sendsMade : Nat)
  | success (totalItems successCount failedCount : Nat)
      (results : List AlbumItemResult) (sendsMade : Nat)
deriving Repr, DecidableEq

/-- The `/api/send/album` handler (server.js 1820-1900) after the
connectivity gate: the missing-fields check and the 10-item cap run
before the loop; then the loop sends each item and the counts are
aggregated from the results array. -/
def albumHandler (outcome : Nat → SendOutcome) (target : String)
    (media : List MediaItem) : AlbumResponse :=
  if target = "" ∨ media = [] then
    .badRequest "Required fields: to, media (array of media objects)" 0
  else if media.length > 10 then
    .badRequest "Maximum 10 media items allowed per album" 0
  else
    match albumLoop outcome media 0 0 with
    | .error (msg, sends) => .badRequest msg sends
    | .ok (results, sends) =>
      .success media.length
        (results.filter (fun r => r.status = "sent")).length
        (results.filter (fun r => r.status = "failed")).length
        results sends

/-! ## Location and text handlers (server.js 1537-1575, 1056-1095) -/

/-- A handler response for the single-send endpoints. -/
inductive SimpleResponse where
  | badRequest (error : String)
  | success (messageId : String) (target : Option String)
  | serverError (error : String)
deriving Repr, DecidableEq

/-- The `/api/send/location` handler (server.js 1537-1575) after the
connectivity gate, paired with the number of transport submissions. The
required-fields check `!to || !latitude || !longitude` only tests
truthiness; the coordinate values are never validated (they are passed
through `parseFloat` unconditionally), so any truthy strings reach the
transport. -/
def locationHandler (outcome : SendOutcome) (target latitude longitude : String) :
    SimpleResponse × Nat :=
  if target = "" ∨ latitude = "" ∨ longitude = "" then
    (.badRequest "Required fields: to, latitude, longitude", 0)
  else
    match outcome with
    | .ok mid => (.success mid (formatWhatsAppId target), 1)
    | .err _ => (.serverError "Failed to send location", 1)

/-- The `/api/send/text` handler (server.js 1056-1095): the connectivity
gate, the `!to || !text` check on the raw fields, then an unconditional
send to `formatWhatsAppId(to)`. Paired with the number of transport
submissions. -/
def textHandler (outcome : SendOutcome) (isConn : Bool) (target text : String) :
    SimpleResponse × Nat :=
  if !isConn then (.badRequest "WhatsApp not connected", 0)
  else if target = "" ∨ text = "" then
    (.badRequest "Both to and text fields are required", 0)
  else
    match outcome with
    | .ok mid => (.success mid (formatWhatsAppId target), 1)
    | .err _ => (.serverError "Failed to send message", 1)

/-! ## Catalog handler, single-product branch (server.js 1716-1781) -/

/-- One element of the catalog request's `products` array. -/
structure Product where
  name : Option String
  description : Option String
  currency : Option String
  price : Option String
  id : Option String
  url : Option String
  image : Option String
deriving Repr, DecidableEq

/-- The degraded plain-text fallback message built at server.js 1760-1762:
a template summarizing title, product name, currency (defaulting to `$`),
price, description (defaulting to `Featured product`), optional url, and
footer. -/
def fallbackText (title footer : String) (p : Product) : String :=
  "🛍️ *" ++ title ++ "*\n\n📦 *" ++ jsToString p.name ++ "*\n💰 " ++
  (if jsTruthy p.currency then jsToString p.currency else "$") ++ jsToString p.price ++
  "\n📝 " ++ (if jsTruthy p.description then jsToString p.description else "Featured product") ++
  "\n" ++ (if jsTruthy p.url then "🌐 " ++ jsToString p.url else "") ++
  "\n\n" ++ footer

/-- The catalog handler's response in the single-product branch:
`richSuccess` is the 200 of the rich attempt, `fallbackSuccess` the 200
of the degraded attempt carrying `fallbackReason` (the rich attempt's
error message), and `serverError` the 500 built by the outer catch from
the degraded attempt's error alone. -/
inductive CatalogResponse where
  | richSuccess (messageId : String)
  | fallbackSuccess (messageId : String) (fallbackReason : String)
  | serverError (error : String)
deriving Repr, DecidableEq

/-- A run of the single-product catalog branch: the response and the
list of degraded plain-text payloads submitted to the transport. -/
structure CatalogRun where
  response : CatalogResponse
  fallbackTextsSubmitted : List String
deriving Repr, DecidableEq

/-- The single-product branch of the `/api/send/catalog` handler
(server.js 1716-1781): the rich product message is submitted first; if
the transport throws, exactly one degraded text message (built by the
template at 1760-1762) is submitted, and its success response carries
`fallbackReason: imageError.message`. If the degraded send also throws,
the outer catch (server.js 1809-1816) returns a 500 whose text is
`'Failed to send catalog: ' + error.message` with the degraded error
only. -/
def catalogSingleProduct (richOutcome fbOutcome : SendOutcome)
    (title footer : String) (p : Product) : CatalogRun :=
  match richOutcome with
  | .ok mid => { response := .richSuccess mid, fallbackTextsSubmitted := [] }
  | .err richMsg =>
    let txt := fallbackText title footer p
    match fbOutcome with
    | .ok mid =>
      { response := .fallbackSuccess mid richMsg, fallbackTextsSubmitted := [txt] }
    | .err fbMsg =>
      { response := .serverError ("Failed to send catalog: " ++ fbMsg),
        fallbackTextsSubmitted := [txt] }

/-- A concrete product used by the catalog theorems. -/
def sampleProduct : Product :=
  { name := some "Mug", description := some "A mug", currency := some "USD",
    price := some "5", id := some "p1", url := none, image := some "https://x/mug.jpg" }

/-! ## Helper lemmas -/

/-- Splitting into chunks of 4 and flattening recovers the original
characters: the pairing-code formatting only inserts separators. -/
theorem chunksOf4_flatten : ∀ l : List Char, (chunksOf4 l).flatten = l
  | [] => rfl
  | [_] => rfl
  | [_, _] => rfl
  | [_, _, _] => rfl
  | a :: b :: c :: d :: rest => by
    simp [chunksOf4, chunksOf4_flatten rest]

/-- Every chunk produced by `chunksOf4` is nonempty and holds at most 4
characters. -/
theorem chunksOf4_mem_bounds : ∀ l : List Char, ∀ g ∈ chunksOf4 l, g ≠ [] ∧ g.length ≤ 4
  | [], g, hg => by simp [chunksOf4] at hg
  | [a], g, hg => by simp [chunksOf4] at hg; simp [hg]
  | [a, b], g, hg => by simp [chunksOf4] at hg; simp [hg]
  | [a, b, c], g, hg => by simp [chunksOf4] at hg; simp [hg]
  | a :: b :: c :: d :: rest, g, hg => by
    simp only [chunksOf4, List.mem_cons] at hg
    rcases hg with rfl | hg
    · simp
    · exact chunksOf4_mem_bounds rest g hg

/-- When the length is divisible by 4, every chunk has exactly 4
characters. -/
theorem chunksOf4_mem_full : ∀ l : List Char, l.length % 4 = 0 →
    ∀ g ∈ chunksOf4 l, g.length = 4
  | [], _, g, hg => by simp [chunksOf4] at hg
  | [a], h, g, hg => by simp at h
  | [a, b], h, g, hg => by simp at h
  | [a, b, c], h, g, hg => by simp at h
  | a :: b :: c :: d :: rest, h, g, hg => by
    simp only [chunksOf4, List.mem_cons] at hg
    have h4 : rest.length % 4 = 0 := by
      simp only [List.length_cons] at h
      omega
    rcases hg with rfl | hg
    · simp
    · exact chunksOf4_mem_full rest h4 g hg

/-! ## C1: reconnect backoff delay -/

/-- C1, counterexample: at a transient close handled while
`reconnectAttempts = 0`, the code schedules a 2000 ms delay, not the
claimed `min(1000 * 2 ^ 0, 30000) = 1000` ms, because the counter is
incremented before the delay is computed. -/
theorem reconnect_delay_uses_incremented_counter_cex :
    (handleConnectionClose ⟨0, true, "connected", none⟩ (some 408)).scheduledReconnectDelayMs ≠
      some (min (1000 * 2 ^ 0) 30000) ∧
    (handleConnectionClose ⟨0, true, "connected", none⟩ (some 408)).scheduledReconnectDelayMs =
      some 2000 := by
  constructor
  · decide
  · decide

/-- C1, amended: for every close whose status code is not `loggedOut`,
while `reconnectAttempts < maxReconnectAttempts`, a reconnect is
scheduled with delay `min(1000 * 2 ^ (a + 1), 30000)` ms where `a` is
the value of the counter when the close is handled (the counter is
incremented first, and the delay uses the incremented value), and the
counter increases by exactly 1. -/
theorem reconnect_backoff_delay (s : ConnState) (statusCode : Option Nat)
    (hcode : statusCode ≠ some loggedOutCode)
    (hlt : s.reconnectAttempts < maxReconnectAttempts) :
    (handleConnectionClose s statusCode).scheduledReconnectDelayMs
      = some (min (1000 * 2 ^ (s.reconnectAttempts + 1)) 30000) ∧
    (handleConnectionClose s statusCode).state.reconnectAttempts = s.reconnectAttempts + 1 := by
  unfold handleConnectionClose
  split
  · exact ⟨rfl, rfl⟩
  · next h => exact absurd ⟨hcode, hlt⟩ h

/-- C1, witness: the amended backoff theorem evaluated at counter value
2 and status code 515: delay 8000 ms, counter becomes 3. -/
theorem reconnect_backoff_delay_witness :
    (handleConnectionClose ⟨2, true, "connected", none⟩ (some 515)).scheduledReconnectDelayMs =
      some 8000 ∧
    (handleConnectionClose ⟨2, true, "connected", none⟩ (some 515)).state.reconnectAttempts = 3 := by
  have h := reconnect_backoff_delay ⟨2, true, "connected", none⟩ (some 515)
    (by decide) (by decide)
  exact ⟨h.1.trans (by decide), h.2⟩

/-! ## C6: no reconnect after the maximum -/

/-- C6: once `reconnectAttempts` has reached `maxReconnectAttempts`, a
further transient close schedules no reconnect (`setTimeout` is never
reached) and leaves the session disconnected with the counter
unchanged. -/
theorem no_reconnect_after_max (s : ConnState) (statusCode : Option Nat)
    (_hcode : statusCode ≠ some loggedOutCode)
    (hmax : maxReconnectAttempts ≤ s.reconnectAttempts) :
    (handleConnectionClose s statusCode).scheduledReconnectDelayMs = none ∧
    (handleConnectionClose s statusCode).state.isConnected = false ∧
    (handleConnectionClose s statusCode).state.connectionState = "disconnected" ∧
    (handleConnectionClose s statusCode).state.reconnectAttempts = s.reconnectAttempts := by
  unfold handleConnectionClose
  split
  · next h => exact absurd h.2 (Nat.not_lt.mpr hmax)
  · exact ⟨rfl, rfl, rfl, rfl⟩

/-- C6, witness: after 5 attempts, a close with transient status 408
schedules nothing and stays disconnected. -/
theorem no_reconnect_after_max_witness :
    (handleConnectionClose ⟨5, false, "disconnected", none⟩ (some 408)).scheduledReconnectDelayMs = none ∧
    (handleConnectionClose ⟨5, false, "disconnected", none⟩ (some 408)).state.isConnected = false ∧
    (handleConnectionClose ⟨5, false, "disconnected", none⟩ (some 408)).state.connectionState = "disconnected" ∧
    (handleConnectionClose ⟨5, false, "disconnected", none⟩ (some 408)).state.reconnectAttempts = 5 :=
  no_reconnect_after_max ⟨5, false, "disconnected", none⟩ (some 408) (by decide) (by decide)

/-! ## C7: the open transition resets the counter and the challenge -/

/-- C7: every `connection === 'open'` handling resets the reconnect
counter to 0, clears the pending QR challenge, and marks the session
connected. -/
theorem connected_resets_counter_and_challenge (s : ConnState) :
    (handleConnectionOpen s).reconnectAttempts = 0 ∧
    (handleConnectionOpen s).qr = none ∧
    (handleConnectionOpen s).isConnected = true ∧
    (handleConnectionOpen s).connectionState = "connected" :=
  ⟨rfl, rfl, rfl, rfl⟩

/-! ## C2: pairing code formatting -/

/-- C2, counterexample: the 5-character raw code "ABCDE" has a length
not divisible by 4 yet is NOT returned unmodified: the greedy regex
split produces "ABCD-E". -/
theorem pairing_code_not_passthrough_cex :
    "ABCDE".length % 4 ≠ 0 ∧
    formatPairingCode "ABCDE" = "ABCD-E" ∧
    formatPairingCode "ABCDE" ≠ "ABCDE" := by
  refine ⟨by decide, by decide, by decide⟩

/-- C2, amended: every non-empty raw code is split into greedy groups of
at most 4 characters (all groups have exactly 4 when the length is
divisible by 4; otherwise the final group holds the 1-3 remaining
characters) joined by hyphens; rejoining the groups recovers the raw
code; "ABCD1234" formats as "ABCD-1234". Only the empty code takes the
pass-through branch. -/
theorem pairing_code_grouping (code : String) (h : code ≠ "") :
    formatPairingCode "ABCD1234" = "ABCD-1234" ∧
    formatPairingCode code = String.intercalate "-" ((chunksOf4 code.data).map String.mk) ∧
    (chunksOf4 code.data).flatten = code.data ∧
    (∀ g ∈ chunksOf4 code.data, g ≠ [] ∧ g.length ≤ 4) ∧
    (code.length % 4 = 0 → ∀ g ∈ chunksOf4 code.data, g.length = 4) := by
  refine ⟨by decide, ?_, chunksOf4_flatten code.data, chunksOf4_mem_bounds code.data, ?_⟩
  · simp [formatPairingCode, h]
  · intro hm
    exact chunksOf4_mem_full code.data hm

/-- C2, witness: the grouping theorem applied to the concrete code
"ABCD1234". -/
theorem pairing_code_grouping_witness :
    formatPairingCode "ABCD1234" = "ABCD-1234" ∧
    (chunksOf4 "ABCD1234".data).flatten = "ABCD1234".data :=
  ⟨(pairing_code_grouping "ABCD1234" (by decide)).1,
   (pairing_code_grouping "ABCD1234" (by decide)).2.2.1⟩

/-! ## C9: target identifier normalization -/

/-- C9: normalization keeps exactly the digit/`@`/`:` characters and
appends `@s.whatsapp.net` precisely when the stripped result contains no
`@`; the spec's example "+1 234-567-8900" normalizes to
"12345678900@s.whatsapp.net"; the empty (falsy) identifier yields `none`
(the handlers reject it with a 400 before any submission). -/
theorem target_normalization (id : String) (h : id ≠ "") :
    formatWhatsAppId "" = none ∧
    formatWhatsAppId "+1 234-567-8900" = some "12345678900@s.whatsapp.net" ∧
    ∃ out, formatWhatsAppId id = some out ∧
      out.data = id.data.filter keepChar ++
        (if (id.data.filter keepChar).contains '@' then [] else "@s.whatsapp.net".data) := by
  refine ⟨rfl, by decide, ?_⟩
  have hunf : formatWhatsAppId id =
      some (if (id.data.filter keepChar).contains '@'
            then String.mk (id.data.filter keepChar)
            else String.mk (id.data.filter keepChar ++ "@s.whatsapp.net".data)) := by
    simp only [formatWhatsAppId, if_neg h]
    rw [apply_ite some]
  by_cases hc : (id.data.filter keepChar).contains '@' = true
  · refine ⟨String.mk (id.data.filter keepChar), ?_, ?_⟩
    · rw [hunf, if_pos hc]
    · rw [if_pos hc, List.append_nil]
  · refine ⟨String.mk (id.data.filter keepChar ++ "@s.whatsapp.net".data), ?_, ?_⟩
    · rw [hunf, if_neg hc]
    · rw [if_neg hc]

/-- C9, witness: the normalization theorem applied to the spec's example
identifier. -/
theorem target_normalization_witness :
    formatWhatsAppId "+1 234-567-8900" = some "12345678900@s.whatsapp.net" :=
  (target_normalization "+1 234-567-8900" (by decide)).2.1

/-! ## C10: garbage targets pass validation -/

/-- C10: a non-empty identifier with no digit, `@` or `:` at all
normalizes to the bare suffix "@s.whatsapp.net" rather than being
rejected, and the text handler's own validation (which only tests
truthiness of the raw field) lets it through to the transport: one
submission is made, addressed to "@s.whatsapp.net". -/
theorem garbage_target_reaches_transport (id : String) (h : id ≠ "")
    (hnone : ∀ c ∈ id.data, keepChar c = false) :
    formatWhatsAppId id = some "@s.whatsapp.net" ∧
    ∀ mid, (textHandler (.ok mid) true id "hello").2 = 1 ∧
      (textHandler (.ok mid) true id "hello").1 = .success mid (some "@s.whatsapp.net") := by
  have hfil : id.data.filter keepChar = [] := by
    refine List.filter_eq_nil_iff.mpr ?_
    intro a ha
    simp [hnone a ha]
  have hfmt : formatWhatsAppId id = some "@s.whatsapp.net" := by
    simp [formatWhatsAppId, h, hfil]
  refine ⟨hfmt, fun mid => ⟨?_, ?_⟩⟩
  · simp [textHandler, h]
  · simp [textHandler, h, hfmt]

/-- C10, witness: the garbage-target theorem applied to the identifier
"abc". -/
theorem garbage_target_reaches_transport_witness :
    formatWhatsAppId "abc" = some "@s.whatsapp.net" ∧
    (textHandler (.ok "MID") true "abc" "hello").2 = 1 ∧
    (textHandler (.ok "MID") true "abc" "hello").1 = .success "MID" (some "@s.whatsapp.net") := by
  have h := garbage_target_reaches_transport "abc" (by decide) (by decide)
  exact ⟨h.1, (h.2 "MID").1, (h.2 "MID").2⟩

/-! ## C4: bulk aggregation -/

/-- The two lists the bulk loop builds partition the recipients: their
lengths sum to the input length. -/
theorem bulkLoop_length (outcome : Nat → SendOutcome) (i : Nat) (rs : List String) :
    (bulkLoop outcome i rs).1.length + (bulkLoop outcome i rs).2.length = rs.length := by
  induction rs generalizing i with
  | nil => rfl
  | cons r rest ih =>
    cases houtcome : outcome i with
    | ok mid =>
      simp only [bulkLoop, houtcome, List.length_cons]
      have := ih (i + 1)
      omega
    | err m =>
      simp only [bulkLoop, houtcome, List.length_cons]
      have := ih (i + 1)
      omega

/-- The bulk loop's two lists are exactly the order-preserving
projections of the per-index outcome sequence: `results` lists the
successful submissions in input order, `errors` the failed ones in input
order. -/
theorem bulkLoop_eq_projections (outcome : Nat → SendOutcome) (i : Nat) (rs : List String) :
    (bulkLoop outcome i rs).1 = (bulkOutcomes outcome i rs).filterMap sentEntry ∧
    (bulkLoop outcome i rs).2 = (bulkOutcomes outcome i rs).filterMap failedEntry := by
  induction rs generalizing i with
  | nil => exact ⟨rfl, rfl⟩
  | cons r rest ih =>
    cases houtcome : outcome i with
    | ok mid =>
      simp only [bulkLoop, bulkOutcomes, houtcome, List.filterMap_cons, sentEntry, failedEntry]
      exact ⟨by rw [(ih (i + 1)).1], (ih (i + 1)).2⟩
    | err m =>
      simp only [bulkLoop, bulkOutcomes, houtcome, List.filterMap_cons, sentEntry, failedEntry]
      exact ⟨(ih (i + 1)).1, by rw [(ih (i + 1)).2]⟩

/-- C4, counterexample: for a 2-recipient batch whose first send throws
and whose second succeeds, the per-item results are NOT one ordered
list: the response splits them into the two separate arrays `results`
(the one sent item) and `errors` (the one failed item), each of length
1, so no returned list carries one entry per input. -/
theorem bulk_two_lists_cex :
    bulkHandler (fun i => if i = 0 then .err "boom" else .ok "MID2") ["111", "222"] "hi" =
      .ok { sent := 1, failed := 1,
            results := [{ target := some "222@s.whatsapp.net", messageId := "MID2" }],
            errors := [{ target := "111", error := "boom" }] } ∧
    ([{ target := some "222@s.whatsapp.net", messageId := "MID2" }] : List BulkSent).length ≠ 2 ∧
    ([{ target := "111", error := "boom" }] : List BulkFailed).length ≠ 2 := by
  refine ⟨by rfl, by decide, by decide⟩

/-- C4, amended: every recipient is attempted (a per-item failure never
halts the loop), `sent + failed` equals the input length, and the
per-item results are reported as TWO lists, `results` for sent items and
`errors` for failed items, each preserving the relative input order: the
handler's output is exactly the pair of order-preserving projections of
the outcome sequence. -/
theorem bulk_counts_and_order (outcome : Nat → SendOutcome)
    (recipients : List String) (message : String)
    (hr : recipients ≠ []) (hm : message ≠ "") :
    bulkHandler outcome recipients message = .ok
      { sent := ((bulkOutcomes outcome 0 recipients).filterMap sentEntry).length,
        failed := ((bulkOutcomes outcome 0 recipients).filterMap failedEntry).length,
        results := (bulkOutcomes outcome 0 recipients).filterMap sentEntry,
        errors := (bulkOutcomes outcome 0 recipients).filterMap failedEntry } ∧
    ((bulkOutcomes outcome 0 recipients).filterMap sentEntry).length +
      ((bulkOutcomes outcome 0 recipients).filterMap failedEntry).length = recipients.length := by
  obtain ⟨h1, h2⟩ := bulkLoop_eq_projections outcome 0 recipients
  constructor
  · simp only [bulkHandler, if_neg hr, if_neg hm]
    rw [h1, h2]
  · rw [← h1, ← h2]
    exact bulkLoop_length outcome 0 recipients

/-- C4, witness: the aggregate theorem evaluated on a 3-recipient batch
whose middle send throws. -/
theorem bulk_counts_and_order_witness :
    bulkHandler (fun i => if i = 1 then .err "timeout" else .ok "MIDX") ["1", "2", "3"] "hello" = .ok
      { sent := ((bulkOutcomes (fun i => if i = 1 then .err "timeout" else .ok "MIDX") 0
                   ["1", "2", "3"]).filterMap sentEntry).length,
        failed := ((bulkOutcomes (fun i => if i = 1 then .err "timeout" else .ok "MIDX") 0
                   ["1", "2", "3"]).filterMap failedEntry).length,
        results := (bulkOutcomes (fun i => if i = 1 then .err "timeout" else .ok "MIDX") 0
                   ["1", "2", "3"]).filterMap sentEntry,
        errors := (bulkOutcomes (fun i => if i = 1 then .err "timeout" else .ok "MIDX") 0
                   ["1", "2", "3"]).filterMap failedEntry } ∧
    ((bulkOutcomes (fun i => if i = 1 then .err "timeout" else .ok "MIDX") 0
       ["1", "2", "3"]).filterMap sentEntry).length +
      ((bulkOutcomes (fun i => if i = 1 then .err "timeout" else .ok "MIDX") 0
       ["1", "2", "3"]).filterMap failedEntry).length = 3 :=
  bulk_counts_and_order (fun i => if i = 1 then .err "timeout" else .ok "MIDX")
    ["1", "2", "3"] "hello" (by decide) (by decide)

/-! ## C5: album batch cap -/

/-- C5: an album request with more than 10 media items fails immediately
with the cap error and zero transport submissions, for every transport
behaviour. -/
theorem album_cap_fails_fast (outcome : Nat → SendOutcome) (target : String)
    (media : List MediaItem) (ht : target ≠ "") (hlen : 10 < media.length) :
    albumHandler outcome target media =
      .badRequest "Maximum 10 media items allowed per album" 0 := by
  have hne : media ≠ [] := by
    intro hnil
    rw [hnil] at hlen
    simp at hlen
  unfold albumHandler
  rw [if_neg (not_or.mpr ⟨ht, hne⟩), if_pos hlen]

/-- C5, witness: the cap theorem evaluated on a concrete 11-item album
request. -/
theorem album_cap_fails_fast_witness :
    albumHandler (fun _ => .ok "MID") "123"
      (List.replicate 11
        { type := some "image", image := none, video := none, url := some "u", caption := none }) =
      .badRequest "Maximum 10 media items allowed per album" 0 :=
  album_cap_fails_fast (fun _ => .ok "MID") "123" _ (by decide) (by simp)

/-! ## C3: per-item validation position -/

/-- When the first invalid-typed item sits after `pre.length` valid
items, the album loop returns the invalid-type error only after having
submitted every one of the preceding items. -/
theorem albumLoop_invalid_after_valid_items (outcome : Nat → SendOutcome)
    (bad : MediaItem) (hbad : classifyItem bad = none) :
    ∀ (pre rest : List MediaItem) (i sends : Nat),
      (∀ it ∈ pre, (classifyItem it).isSome) →
      albumLoop outcome (pre ++ bad :: rest) i sends =
        .error ("Invalid media type for item " ++ toString (i + pre.length + 1) ++
                  ". Use image or video",
                sends + pre.length) := by
  intro pre
  induction pre with
  | nil =>
    intro rest i sends _
    simp [albumLoop, hbad]
  | cons p pre ih =>
    intro rest i sends hpre
    obtain ⟨kind, hk⟩ := Option.isSome_iff_exists.mp (hpre p (by simp))
    have hpre' : ∀ it ∈ pre, (classifyItem it).isSome := fun it hit => hpre it (by simp [hit])
    have harg : i + 1 + pre.length + 1 = i + (pre.length + 1) + 1 := by omega
    have hsends : sends + 1 + pre.length = sends + (pre.length + 1) := by omega
    cases houtcome : outcome i with
    | ok mid =>
      simp [albumLoop, hk, houtcome, ih rest (i + 1) (sends + 1) hpre', harg, hsends]
    | err m =>
      simp [albumLoop, hk, houtcome, ih rest (i + 1) (sends + 1) hpre', harg, hsends]

/-- C3, counterexample: an album request whose first item is a valid
image and whose second item has an invalid media type fails with the
per-item validation error only AFTER one transport submission was
already made (the `sendsMade` component is 1, not 0): the batch is
partially submitted before the validation failure response. -/
theorem album_partial_before_validation_cex :
    albumHandler (fun _ => .ok "MID1") "123"
      [{ type := some "image", image := some "https://x/1.jpg", video := none,
         url := none, caption := none },
       { type := some "gif", image := none, video := none,
         url := some "https://x/2.gif", caption := none }] =
      .badRequest "Invalid media type for item 2. Use image or video" 1 ∧
    (1 : Nat) ≠ 0 := by
  exact ⟨by rfl, by decide⟩

/-- C3, amended: request-level validation (missing fields, empty array,
oversized batch) fails before any submission, but per-item media-type
validation runs INSIDE the send loop: when the first invalid item
follows `k` valid items, the request fails with the invalid-type error
only after those `k` items were already submitted. Malformed coordinates
are not validated at all: the location handler submits any truthy
latitude/longitude strings. -/
theorem album_item_validation_inside_loop (outcome : Nat → SendOutcome) (target : String)
    (pre : List MediaItem) (bad : MediaItem) (rest : List MediaItem)
    (ht : target ≠ "") (hlen : (pre ++ bad :: rest).length ≤ 10)
    (hpre : ∀ it ∈ pre, (classifyItem it).isSome)
    (hbad : classifyItem bad = none) :
    albumHandler outcome target (pre ++ bad :: rest) =
      .badRequest ("Invalid media type for item " ++ toString (pre.length + 1) ++
                     ". Use image or video")
        pre.length ∧
    (locationHandler (.ok "MID") target "not-a-number" "NaN").2 = 1 := by
  constructor
  · have hne : pre ++ bad :: rest ≠ [] := by simp
    unfold albumHandler
    rw [if_neg (not_or.mpr ⟨ht, hne⟩), if_neg (by omega)]
    rw [albumLoop_invalid_after_valid_items outcome bad hbad pre rest 0 0 hpre]
    simp
  · simp [locationHandler, ht]

/-- C3, witness: the amended theorem evaluated at a valid image followed
by an invalid item: the failure response reports item 2 after exactly 1
submission, and garbage coordinates are submitted unvalidated. -/
theorem album_item_validation_inside_loop_witness :
    albumHandler (fun _ => .err "down") "123"
      ([{ type := some "image", image := some "https://x/1.jpg", video := none,
          url := none, caption := none }] ++
       { type := some "gif", image := none, video := none,
         url := some "https://x/2.gif", caption := none } :: []) =
      .badRequest ("Invalid media type for item " ++ toString (1 + 1) ++
                     ". Use image or video") 1 ∧
    (locationHandler (.ok "MID") "123" "not-a-number" "NaN").2 = 1 := by
  have h := album_item_validation_inside_loop (fun _ => .err "down") "123"
    [{ type := some "image", image := some "https://x/1.jpg", video := none,
       url := none, caption := none }]
    { type := some "gif", image := none, video := none,
      url := some "https://x/2.gif", caption := none }
    [] (by decide) (by decide) (by decide) (by decide)
  exact h

/-! ## C8: catalog rich-to-degraded fallback -/

/-- C8, counterexample: when the degraded text submission ALSO throws,
the 500 response carries only the degraded attempt's error; the original
rich-attempt rejection reason ("rich boom") appears nowhere in it, so
the response does not report the degraded outcome together with the
rich rejection reason. -/
theorem catalog_rich_reason_lost_cex :
    (catalogSingleProduct (.err "rich boom") (.err "text boom") "T" "F" sampleProduct).response =
      .serverError "Failed to send catalog: text boom" ∧
    ¬ ("rich boom".data <:+: "Failed to send catalog: text boom".data) := by
  exact ⟨by rfl, by decide⟩

/-- C8, amended: whenever the rich submission is rejected, exactly one
degraded plain-text variant (the template summarizing title, name,
currency, price, description, url and footer) is submitted; when the
degraded submission succeeds the response carries its message id
together with the original rich rejection reason; when the degraded
submission also fails the response is a 500 carrying only the degraded
failure reason. -/
theorem catalog_fallback_reporting (richMsg : String) (fb : SendOutcome)
    (title footer : String) (p : Product) :
    (catalogSingleProduct (.err richMsg) fb title footer p).fallbackTextsSubmitted =
      [fallbackText title footer p] ∧
    (∀ mid, fb = .ok mid →
      (catalogSingleProduct (.err richMsg) fb title footer p).response =
        .fallbackSuccess mid richMsg) ∧
    (∀ m, fb = .err m →
      (catalogSingleProduct (.err richMsg) fb title footer p).response =
        .serverError ("Failed to send catalog: " ++ m)) := by
  refine ⟨?_, ?_, ?_⟩
  · cases fb <;> rfl
  · intro mid hmid
    subst hmid
    rfl
  · intro m hm
    subst hm
    rfl

/-- C8, witness: the fallback theorem evaluated at a rejected rich
attempt followed by a successful degraded attempt. -/
theorem catalog_fallback_reporting_witness :
    (catalogSingleProduct (.err "img 404") (.ok "MID9") "T" "F" sampleProduct).fallbackTextsSubmitted =
      [fallbackText "T" "F" sampleProduct] ∧
    (catalogSingleProduct (.err "img 404") (.ok "MID9") "T" "F" sampleProduct).response =
      .fallbackSuccess "MID9" "img 404" := by
  have h := catalog_fallback_reporting "img 404" (.ok "MID9") "T" "F" sampleProduct
  exact ⟨h.1, h.2.1 "MID9" rfl⟩

end WAElite
